import Mathlib

/-!
Shallow embedding of `src/app/oral-health-tips/page.tsx` from the
pediatric-dentists repository.

The page issues three read queries against a relational store (via an ORM),
assembles the result or a not-found signal (`getOralHealthTipsData`), derives
SEO metadata (`generateMetadata`), and renders a listing view
(`OralHealthTipsPage`).  The store itself is external to the repository, so it
is modelled here as an explicit in-memory database value `Db`; each ORM query
is translated into a pure function over `Db` reproducing the query's filter
predicates, projections and sort keys exactly as written in the source.
Rendering is modelled as the tree of observable values the JSX produces
(headings, card fields, link destinations, sidebar props).
-/

namespace OralHealthTips

/-- `const CATEGORY_SLUG = 'oral-health-tips'` (page.tsx line 11). -/
def CATEGORY_SLUG : String := "oral-health-tips"

/-- A category row, projected to the fields selected by the
`prisma.category.findUnique` call (id, name, slug, description, seoTitle,
seoDescription); optional columns are `Option`-valued. -/
structure Category where
  id : Nat
  name : String
  slug : String
  description : Option String
  seoTitle : Option String
  seoDescription : Option String
deriving Repr, DecidableEq

/-- An author row projected to `{ name, slug }` plus its id for the relation. -/
structure Author where
  id : Nat
  name : String
  slug : String
deriving Repr, DecidableEq

/-- An article row with the columns the page reads.  `status` is the enum
rendered as its string value; timestamps are modelled as `Nat` instants,
`publishedAt` being nullable. `categoryId`/`authorId` are the belongs-to
foreign keys. -/
structure Article where
  id : Nat
  slug : String
  title : String
  excerpt : Option String
  featuredImage : Option String
  status : String
  publishedAt : Option Nat
  createdAt : Nat
  categoryId : Nat
  authorId : Nat
deriving Repr, DecidableEq

/-- The external relational store the three queries read from. -/
structure Db where
  categories : List Category
  authors : List Author
  articles : List Article
deriving Repr, DecidableEq

/-- `prisma.category.findUnique({ where: { slug: CATEGORY_SLUG }, select: ... })`
(page.tsx lines 17-27): the unique category with the fixed slug, if any. -/
def categoryFindUnique (db : Db) : Option Category :=
  db.categories.find? fun c => c.slug == CATEGORY_SLUG

/-- An article together with its included relations, as produced by
`include: { author: { select: { name, slug } }, category: { select: { name, slug } } }`
(page.tsx lines 35-38). -/
structure ArticleRow where
  article : Article
  authorName : String
  authorSlug : String
  categoryName : String
  categorySlug : String
deriving Repr, DecidableEq

/-- Resolve an article's belongs-to relations, building the included row. -/
def includeRels (db : Db) (a : Article) : Option ArticleRow :=
  match db.categories.find? fun c => c.id == a.categoryId with
  | none => none
  | some c =>
    match db.authors.find? fun u => u.id == a.authorId with
    | none => none
    | some u => some ⟨a, u.name, u.slug, c.name, c.slug⟩

/-- The `where` clause of the article query (page.tsx lines 29-34):
`status: 'PUBLISHED'` and the related category's slug equals the fixed slug. -/
def articleWhere (db : Db) (a : Article) : Bool :=
  a.status == "PUBLISHED" &&
    (match db.categories.find? fun c => c.id == a.categoryId with
     | some c => c.slug == CATEGORY_SLUG
     | none => false)

/-- The `orderBy: [{ publishedAt: 'desc' }, { createdAt: 'desc' }]` sort
relation (page.tsx lines 39-42): `a` may precede `b` when `a.publishedAt` is
at least `b.publishedAt` in the descending null-first order, with
`createdAt` descending as the tie-break. -/
def articleOrder (a b : ArticleRow) : Prop :=
  match a.article.publishedAt, b.article.publishedAt with
  | none, none => b.article.createdAt ≤ a.article.createdAt
  | none, some _ => True
  | some _, none => False
  | some x, some y => y < x ∨ (x = y ∧ b.article.createdAt ≤ a.article.createdAt)

instance : DecidableRel articleOrder := fun a b => by
  unfold articleOrder
  cases a.article.publishedAt <;> cases b.article.publishedAt <;> infer_instance

/-- `prisma.article.findMany(...)` (page.tsx lines 28-43): published articles
of the fixed category, with author and category included, ordered by
(publishedAt desc, createdAt desc). -/
def articleFindMany (db : Db) : List ArticleRow :=
  List.insertionSort articleOrder
    ((db.articles.filter (articleWhere db)).filterMap (includeRels db))

/-- The nested selection `articles: { where: { status: 'PUBLISHED' }, select: { id } }`
(page.tsx lines 56-59): ids of a category's published articles. -/
def publishedArticleIds (db : Db) (c : Category) : List Nat :=
  (db.articles.filter fun a => a.categoryId == c.id && a.status == "PUBLISHED").map
    fun a => a.id

/-- A sibling-category row as returned by the third query: name, slug, and the
id list of its published articles. -/
structure SiblingRow where
  name : String
  slug : String
  articleIds : List Nat
deriving Repr, DecidableEq

/-- The `name` ascending order used for sibling categories (page.tsx 61-63). -/
def categoryNameLE (c d : Category) : Prop :=
  c.name ≤ d.name

instance : DecidableRel categoryNameLE := fun c d =>
  inferInstanceAs (Decidable (c.name ≤ d.name))

/-- `prisma.category.findMany(...)` (page.tsx lines 44-64): categories whose
slug differs from the fixed slug and that have at least one published article,
projected to name, slug and published-article ids, ordered by name ascending. -/
def siblingFindMany (db : Db) : List SiblingRow :=
  (List.insertionSort categoryNameLE
      (db.categories.filter fun c =>
        c.slug != CATEGORY_SLUG &&
          db.articles.any fun a => a.categoryId == c.id && a.status == "PUBLISHED")).map
    fun c => ⟨c.name, c.slug, publishedArticleIds db c⟩

/-- A sibling-category summary, post-processed with
`count = item.articles.length` (page.tsx lines 74-78). -/
structure SiblingSummary where
  name : String
  slug : String
  count : Nat
deriving Repr, DecidableEq

/-- The combined result of the loader when the category exists. -/
structure PageData where
  category : Category
  articles : List ArticleRow
  siblingCategories : List SiblingSummary
deriving Repr, DecidableEq

/-- `getOralHealthTipsData` (page.tsx lines 15-80): runs the three queries,
returns `none` (the not-found signal, `null` in the source) when the category
query found nothing, otherwise the assembled `PageData`.  All three query
results are computed; the category check happens on the joined results. -/
def getOralHealthTipsData (db : Db) : Option PageData :=
  let category := categoryFindUnique db
  let articles := articleFindMany db
  let siblingCategories := siblingFindMany db
  match category with
  | none => none
  | some c =>
    some ⟨c, articles,
      siblingCategories.map fun item => ⟨item.name, item.slug, item.articleIds.length⟩⟩

/-- `Promise.all` semantics of the loader (page.tsx lines 16-65): the three
queries may each fault; any rejection propagates and the category check is
reached only when all three resolved.  Inputs are the three query outcomes. -/
def getOralHealthTipsDataE (qc : Except String (Option Category))
    (qa : Except String (List ArticleRow)) (qs : Except String (List SiblingRow)) :
    Except String (Option PageData) :=
  match qc, qa, qs with
  | .error e, _, _ => .error e
  | _, .error e, _ => .error e
  | _, _, .error e => .error e
  | .ok category, .ok articles, .ok siblingCategories =>
    .ok (match category with
      | none => none
      | some c =>
        some ⟨c, articles,
          siblingCategories.map fun item => ⟨item.name, item.slug, item.articleIds.length⟩⟩)

/-- The `openGraph` object of the metadata result. -/
structure OpenGraph where
  title : String
  description : String
deriving Repr, DecidableEq

/-- The metadata shape the page produces: title, description, and an optional
`openGraph` block (absent in the not-found fallback branch). -/
structure Metadata where
  title : String
  description : String
  openGraph : Option OpenGraph
deriving Repr, DecidableEq

/-- The fixed description used when the description chain is exhausted
(page.tsx lines 99 and 105). -/
def metaDescriptionFallback : String :=
  "Practical pediatric oral health advice covering brushing routines, diet tips, and preventative care."

/-- The fixed fallback description of the not-found branch (page.tsx line 88);
the source file contains the mis-decoded apostrophe bytes verbatim. -/
def notFoundDescription : String :=
  "Expert oral health tips to help families protect kidsâ€™ smiles with preventive care at home."

/-- `generateMetadata` (page.tsx lines 82-108): reloads the data; on the
not-found signal returns the fixed title/description pair (no openGraph);
otherwise derives title and description with `??` fallbacks, duplicating the
same two expressions into the openGraph block. -/
def generateMetadata (db : Db) : Metadata :=
  match getOralHealthTipsData db with
  | none =>
    { title := "Oral Health Tips for Kids"
      description := notFoundDescription
      openGraph := none }
  | some data =>
    { title := data.category.seoTitle.getD (data.category.name ++ " | Pediatric Dentist Directory")
      description :=
        data.category.seoDescription.getD
          (data.category.description.getD metaDescriptionFallback)
      openGraph := some
        { title :=
            data.category.seoTitle.getD (data.category.name ++ " | Pediatric Dentist Directory")
          description :=
            data.category.seoDescription.getD
              (data.category.description.getD metaDescriptionFallback) } }

/-- The observable fields of one rendered article card (page.tsx lines
152-216): image source (none renders the fixed placeholder panel), the
category-name badge, the title link and text, optional excerpt, author name,
the optional formatted date, and the "Read tip" link destination. -/
structure ArticleCard where
  key : Nat
  imageSrc : Option String
  badgeText : String
  titleHref : String
  titleText : String
  excerptText : Option String
  authorName : String
  dateText : Option String
  readHref : String
deriving Repr, DecidableEq

/-- Render one article card.  `fmt` abstracts the external `formatDate`
utility.  The title link interpolates the slug
(page.tsx line 178: a template literal with a placeholder), while the
"Read tip" link (line 198) is a template literal WITHOUT a placeholder, so its
destination is the literal text `/blog/\x7barticle.slug\x7d/`. -/
def renderCard (fmt : Nat → String) (row : ArticleRow) : ArticleCard :=
  { key := row.article.id
    imageSrc := row.article.featuredImage
    badgeText := row.categoryName
    titleHref := "/blog/" ++ row.article.slug ++ "/"
    titleText := row.article.title
    excerptText := row.article.excerpt
    authorName := row.authorName
    dateText := row.article.publishedAt.map fmt
    readHref := "/blog/\x7barticle.slug\x7d/" }

/-- The props passed to the `DirectorySidebar` collaborator
(page.tsx lines 219-225). -/
structure SidebarProps where
  categoryName : String
  siblingCategories : List SiblingSummary
  relatedArticles : List ArticleRow
  categoryLink : String → String
  activeCategorySlug : String

/-- The observable page tree rendered from loaded data
(page.tsx lines 119-228): hero label/heading/subheading, whether the
empty-state block is shown (`articles.length === 0`), the article cards in
order, and the sidebar props with `relatedArticles = articles.slice(0, 3)`. -/
structure PageView where
  heroLabel : String
  heroHeading : String
  heroSubheading : String
  showEmptyState : Bool
  cards : List ArticleCard
  sidebar : SidebarProps

/-- Render the page body from loaded data (page.tsx lines 119-228). -/
def renderView (fmt : Nat → String) (data : PageData) : PageView :=
  { heroLabel := "Family Oral Care Guides"
    heroHeading := data.category.name
    heroSubheading :=
      data.category.description.getD
        "Actionable oral health guidance from pediatric dental specialists to keep smiles bright at every age."
    showEmptyState := data.articles.length == 0
    cards := data.articles.map (renderCard fmt)
    sidebar :=
      { categoryName := data.category.name
        siblingCategories := data.siblingCategories
        relatedArticles := data.articles.take 3
        categoryLink := fun slug => "/" ++ slug ++ "/"
        activeCategorySlug := CATEGORY_SLUG } }

/-- `OralHealthTipsPage` (page.tsx lines 110-230): loads the data, calls
`notFound()` (modelled as `none`) when the loader signalled not-found, else
renders the view. -/
def OralHealthTipsPage (fmt : Nat → String) (db : Db) : Option PageView :=
  match getOralHealthTipsData db with
  | none => none
  | some data => some (renderView fmt data)

/-- The "greater or equal" order on the descending `publishedAt` sort key:
a null publish date sorts before any concrete instant, and instants sort by
`≥`.  Used to state the ordering invariant of the article list. -/
def publishedAtGE : Option Nat → Option Nat → Prop
  | none, _ => True
  | some _, none => False
  | some x, some y => y ≤ x

/-! Concrete store values used to witness the theorems below on executable
inputs: a store holding the fixed category with three published articles
(one with a null publish date), one sibling category with one published
article, one category with only a draft; a store missing the fixed category;
and a store whose category has empty-string SEO fields. -/

/-- The fixed category as stored in the example database. -/
def exCatTips : Category :=
  ⟨1, "Oral Health Tips", "oral-health-tips", some "Tips for healthy smiles.", none, none⟩

/-- A sibling category with one published article. -/
def exCatBraces : Category := ⟨2, "Braces", "braces", none, none, none⟩

/-- A category whose only article is a draft (excluded from the sidebar). -/
def exCatEmpty : Category := ⟨3, "Empty", "empty", none, none, none⟩

/-- The example author. -/
def exAuthor : Author := ⟨1, "Dr. A", "dr-a"⟩

/-- Published article of the fixed category, publish instant 100. -/
def exArt1 : Article :=
  ⟨1, "tip-one", "Tip One", some "First tip.", some "/img/one.jpg", "PUBLISHED",
    some 100, 10, 1, 1⟩

/-- Published article of the fixed category, publish instant 50. -/
def exArt2 : Article :=
  ⟨2, "tip-two", "Tip Two", none, none, "PUBLISHED", some 50, 20, 1, 1⟩

/-- Published article of the fixed category with a null publish date. -/
def exArt3 : Article :=
  ⟨3, "tip-three", "Tip Three", none, none, "PUBLISHED", none, 30, 1, 1⟩

/-- Published article of the sibling category. -/
def exArt4 : Article :=
  ⟨4, "braces-one", "Braces One", none, none, "PUBLISHED", some 80, 40, 2, 1⟩

/-- A draft article, never visible. -/
def exArt5 : Article :=
  ⟨5, "draft-one", "Draft One", none, none, "DRAFT", none, 50, 3, 1⟩

/-- The main example store. -/
def exDb : Db :=
  ⟨[exCatTips, exCatBraces, exCatEmpty], [exAuthor],
    [exArt1, exArt2, exArt3, exArt4, exArt5]⟩

/-- `exArt1` with its included relations. -/
def exRow1 : ArticleRow := ⟨exArt1, "Dr. A", "dr-a", "Oral Health Tips", "oral-health-tips"⟩

/-- `exArt2` with its included relations. -/
def exRow2 : ArticleRow := ⟨exArt2, "Dr. A", "dr-a", "Oral Health Tips", "oral-health-tips"⟩

/-- `exArt3` with its included relations. -/
def exRow3 : ArticleRow := ⟨exArt3, "Dr. A", "dr-a", "Oral Health Tips", "oral-health-tips"⟩

/-- The loader result on `exDb`: the null-dated article sorts first, then the
two dated ones by descending publish instant; one sibling summary. -/
def exData : PageData :=
  ⟨exCatTips, [exRow3, exRow1, exRow2], [⟨"Braces", "braces", 1⟩]⟩

/-- The sibling summary the loader produces on `exDb`. -/
def exSib : SiblingSummary := ⟨"Braces", "braces", 1⟩

/-- A store without the fixed category slug. -/
def exDbMissing : Db := ⟨[exCatBraces], [exAuthor], [exArt4]⟩

/-- A concrete date formatter standing in for the external `formatDate`. -/
def exFmt : Nat → String := fun n => toString n

/-- A category under the fixed slug whose optional fields are all the empty
string (present but empty). -/
def exCatBlank : Category := ⟨7, "Blank", "oral-health-tips", some "", some "", some ""⟩

/-- A store holding only `exCatBlank`. -/
def exDbBlank : Db := ⟨[exCatBlank], [], []⟩

/-- The loader result on `exDbBlank`. -/
def exDataBlank : PageData := ⟨exCatBlank, [], []⟩

instance : IsTotal ArticleRow articleOrder := ⟨fun a b => by
  unfold articleOrder
  cases a.article.publishedAt <;> cases b.article.publishedAt <;> simp <;> omega⟩

instance : IsTrans ArticleRow articleOrder := ⟨fun a b c hab hbc => by
  unfold articleOrder at hab hbc ⊢
  cases ha : a.article.publishedAt <;> cases hb : b.article.publishedAt <;>
    cases hc : c.article.publishedAt <;> simp [ha, hb, hc] at hab hbc ⊢ <;> omega⟩

instance : IsTotal Category categoryNameLE := ⟨fun a b => le_total a.name b.name⟩

instance : IsTrans Category categoryNameLE := ⟨fun _ _ _ hab hbc => le_trans hab hbc⟩

/-- Successful loads are exactly the runs where the category query found a
row, and then each field of the result is the corresponding query result. -/
lemma getOralHealthTipsData_elim {db : Db} {d : PageData}
    (h : getOralHealthTipsData db = some d) :
    categoryFindUnique db = some d.category ∧
    d.articles = articleFindMany db ∧
    d.siblingCategories =
      (siblingFindMany db).map fun item => ⟨item.name, item.slug, item.articleIds.length⟩ := by
  unfold getOralHealthTipsData at h
  cases hc : categoryFindUnique db with
  | none => rw [hc] at h; exact absurd h (by simp)
  | some c =>
    rw [hc] at h
    simp only [Option.some.injEq] at h
    subst h
    exact ⟨rfl, rfl, rfl⟩

/-- The article query result is sorted by its order relation. -/
lemma articleFindMany_sorted (db : Db) :
    List.Sorted articleOrder (articleFindMany db) :=
  List.sorted_insertionSort articleOrder _

/-- The sort relation implies the spec-level adjacent-pair property. -/
lemma articleOrder_spec {a b : ArticleRow} (h : articleOrder a b) :
    publishedAtGE a.article.publishedAt b.article.publishedAt ∧
    (a.article.publishedAt = b.article.publishedAt →
      b.article.createdAt ≤ a.article.createdAt) := by
  unfold articleOrder at h
  unfold publishedAtGE
  cases ha : a.article.publishedAt <;> cases hb : b.article.publishedAt <;>
    (rw [ha, hb] at h; simp_all; try omega)

/-- Unfolding a successful relation include. -/
lemma includeRels_elim {db : Db} {a : Article} {row : ArticleRow}
    (h : includeRels db a = some row) :
    row.article = a ∧
    ∃ c, db.categories.find? (fun c => c.id == a.categoryId) = some c ∧
      row.categoryName = c.name ∧ row.categorySlug = c.slug := by
  unfold includeRels at h
  cases hc : db.categories.find? fun c => c.id == a.categoryId with
  | none => rw [hc] at h; exact absurd h (by simp)
  | some c =>
    rw [hc] at h
    cases hu : db.authors.find? fun u => u.id == a.authorId with
    | none => rw [hu] at h; exact absurd h (by simp)
    | some u =>
      rw [hu] at h
      simp only [Option.some.injEq] at h
      subst h
      exact ⟨rfl, c, rfl, rfl, rfl⟩

/-- Every row the article query returns is a published article of the fixed
category. -/
lemma mem_articleFindMany {db : Db} {row : ArticleRow}
    (h : row ∈ articleFindMany db) :
    row.article.status = "PUBLISHED" ∧ row.categorySlug = CATEGORY_SLUG := by
  unfold articleFindMany at h
  rw [List.mem_insertionSort] at h
  rw [List.mem_filterMap] at h
  obtain ⟨a, ha, hinc⟩ := h
  rw [List.mem_filter] at ha
  obtain ⟨-, hw⟩ := ha
  obtain ⟨hart, c, hc, -, hslug⟩ := includeRels_elim hinc
  unfold articleWhere at hw
  rw [hc] at hw
  simp only [Bool.and_eq_true, beq_iff_eq] at hw
  exact ⟨hart ▸ hw.1, hslug.trans hw.2⟩

/-- Every sibling row comes from a stored category with a different slug and
at least one published article, and carries that category's published
article ids. -/
lemma mem_siblingFindMany {db : Db} {s : SiblingRow} (h : s ∈ siblingFindMany db) :
    ∃ c ∈ db.categories, c.name = s.name ∧ c.slug = s.slug ∧
      s.articleIds = publishedArticleIds db c ∧
      c.slug ≠ CATEGORY_SLUG ∧ s.articleIds ≠ [] := by
  unfold siblingFindMany at h
  rw [List.mem_map] at h
  obtain ⟨c, hc, hs⟩ := h
  rw [List.mem_insertionSort, List.mem_filter] at hc
  obtain ⟨hmem, hp⟩ := hc
  simp only [Bool.and_eq_true, bne_iff_ne, List.any_eq_true, beq_iff_eq] at hp
  obtain ⟨hne, a, hamem, hacat, hastat⟩ := hp
  subst hs
  refine ⟨c, hmem, rfl, rfl, rfl, hne, ?_⟩
  have : a.id ∈ publishedArticleIds db c := by
    unfold publishedArticleIds
    rw [List.mem_map]
    exact ⟨a, by rw [List.mem_filter]; exact ⟨hamem, by simp [hacat, hastat]⟩, rfl⟩
  intro hnil
  have hnil2 : publishedArticleIds db c = [] := hnil
  rw [hnil2] at this
  exact absurd this (List.not_mem_nil _)

/-- The sibling query result is sorted by category name ascending. -/
lemma siblingFindMany_sorted (db : Db) :
    (siblingFindMany db).Chain' fun a b => a.name ≤ b.name := by
  unfold siblingFindMany
  rw [List.chain'_map]
  exact (List.sorted_insertionSort categoryNameLE _).chain'.imp fun a b hab => hab

/-- C1: the loader returns the not-found signal exactly when the category
query for the fixed slug yields no record, and then the page resolves to the
not-found outcome with none of the rendering logic running (no view is
produced).  The check happens only after all three queries resolve: under the
fault-propagating join, a failure of the article query or of the sibling
query propagates as a fault even when the category query already yielded no
record, instead of short-circuiting to the not-found result. -/
theorem c1_not_found_semantics :
    (∀ db : Db, getOralHealthTipsData db = none ↔ categoryFindUnique db = none) ∧
    (∀ (db : Db) (fmt : Nat → String),
      OralHealthTipsPage fmt db = none ↔ getOralHealthTipsData db = none) ∧
    (∀ (e : String) (qs : Except String (List SiblingRow)),
      getOralHealthTipsDataE (Except.ok none) (Except.error e) qs = Except.error e) ∧
    (∀ (e : String) (la : List ArticleRow),
      getOralHealthTipsDataE (Except.ok none) (Except.ok la) (Except.error e) =
        Except.error e) := by
  refine ⟨?_, ?_, ?_, ?_⟩
  · intro db
    unfold getOralHealthTipsData
    cases hc : categoryFindUnique db <;> simp
  · intro db fmt
    unfold OralHealthTipsPage
    cases hd : getOralHealthTipsData db <;> simp
  · intro e qs
    cases qs <;> rfl
  · intro e la
    rfl

/-- C2: in every rendered card the "Read tip" link destination is the
literal, non-interpolated text `/blog/\x7barticle.slug\x7d/` — the same for
every article and independent of its slug — while the title link uses the
interpolated per-article slug. -/
theorem c2_read_link_literal :
    ∀ (fmt : Nat → String) (data : PageData),
      (renderView fmt data).cards = data.articles.map (renderCard fmt) ∧
      ∀ row : ArticleRow,
        (renderCard fmt row).readHref = "/blog/\x7barticle.slug\x7d/" ∧
        (renderCard fmt row).titleHref = "/blog/" ++ row.article.slug ++ "/" ∧
        ∀ other : ArticleRow,
          (renderCard fmt row).readHref = (renderCard fmt other).readHref :=
  fun _ _ => ⟨rfl, fun _ => ⟨rfl, rfl, fun _ => rfl⟩⟩

/-- C3: in every article list the loader returns, each adjacent pair is
ordered by publishedAt descending (null publish dates sorting first, as a
descending sort orders the nullable key), with createdAt descending as the
tie-break when the publishedAt keys are equal (including both null). -/
theorem c3_articles_sorted (db : Db) (d : PageData)
    (h : getOralHealthTipsData db = some d) :
    d.articles.Chain' fun a b =>
      publishedAtGE a.article.publishedAt b.article.publishedAt ∧
      (a.article.publishedAt = b.article.publishedAt →
        b.article.createdAt ≤ a.article.createdAt) := by
  rw [(getOralHealthTipsData_elim h).2.1]
  exact ((articleFindMany_sorted db).chain').imp fun a b hab => articleOrder_spec hab

/-- Witness for C3 on the concrete store `exDb`. -/
theorem c3_articles_sorted_witness :
    exData.articles.Chain' (fun a b =>
      publishedAtGE a.article.publishedAt b.article.publishedAt ∧
      (a.article.publishedAt = b.article.publishedAt →
        b.article.createdAt ≤ a.article.createdAt)) :=
  c3_articles_sorted exDb exData (by decide)

/-- C4: every article in a returned list has status PUBLISHED and its
included category slug is the fixed slug. -/
theorem c4_articles_published (db : Db) (d : PageData) (row : ArticleRow)
    (h : getOralHealthTipsData db = some d) (hrow : row ∈ d.articles) :
    row.article.status = "PUBLISHED" ∧ row.categorySlug = CATEGORY_SLUG := by
  obtain ⟨-, harts, -⟩ := getOralHealthTipsData_elim h
  rw [harts] at hrow
  exact mem_articleFindMany hrow

/-- Witness for C4 on the concrete store `exDb` and its null-dated article. -/
theorem c4_articles_published_witness :
    exRow3.article.status = "PUBLISHED" ∧ exRow3.categorySlug = CATEGORY_SLUG :=
  c4_articles_published exDb exData exRow3 (by decide) (by decide)

/-- C5: every sibling summary has a slug different from the fixed slug, a
count equal to the number of that category's PUBLISHED articles and at least
1, and the summary list is sorted by name ascending. -/
theorem c5_sibling_summaries (db : Db) (d : PageData)
    (h : getOralHealthTipsData db = some d) :
    (∀ s ∈ d.siblingCategories,
      s.slug ≠ CATEGORY_SLUG ∧ 1 ≤ s.count ∧
      ∃ c ∈ db.categories, c.name = s.name ∧ c.slug = s.slug ∧
        s.count = (publishedArticleIds db c).length) ∧
    d.siblingCategories.Chain' (fun a b => a.name ≤ b.name) := by
  obtain ⟨-, -, hsib⟩ := getOralHealthTipsData_elim h
  rw [hsib]
  constructor
  · intro s hs
    rw [List.mem_map] at hs
    obtain ⟨r, hr, hrs⟩ := hs
    obtain ⟨c, hcmem, hname, hslug, hids, hne, hnil⟩ := mem_siblingFindMany hr
    subst hrs
    refine ⟨by simpa using hslug ▸ hne, ?_, c, hcmem, hname, hslug, by rw [hids]⟩
    simpa [Nat.one_le_iff_ne_zero, List.length_eq_zero] using hnil
  · rw [List.chain'_map]
    exact (siblingFindMany_sorted db).imp fun a b hab => hab

/-- Witness for C5 on the concrete store `exDb` and its Braces summary. -/
theorem c5_sibling_summaries_witness :
    (exSib.slug ≠ CATEGORY_SLUG ∧ 1 ≤ exSib.count ∧
      ∃ c ∈ exDb.categories, c.name = exSib.name ∧ c.slug = exSib.slug ∧
        exSib.count = (publishedArticleIds exDb c).length) ∧
    exData.siblingCategories.Chain' (fun a b => a.name ≤ b.name) :=
  ⟨(c5_sibling_summaries exDb exData (by decide)).1 exSib (by decide),
   (c5_sibling_summaries exDb exData (by decide)).2⟩

/-- C6: when the category is found, the metadata title is seoTitle when
present, else the category name followed by the fixed suffix; the description
is seoDescription when present, else the category description when present,
else the fixed fallback sentence. -/
theorem c6_metadata_fields (db : Db) (d : PageData)
    (h : getOralHealthTipsData db = some d) :
    (∀ t, d.category.seoTitle = some t → (generateMetadata db).title = t) ∧
    (d.category.seoTitle = none →
      (generateMetadata db).title = d.category.name ++ " | Pediatric Dentist Directory") ∧
    (∀ s, d.category.seoDescription = some s → (generateMetadata db).description = s) ∧
    (∀ s, d.category.seoDescription = none → d.category.description = some s →
      (generateMetadata db).description = s) ∧
    (d.category.seoDescription = none → d.category.description = none →
      (generateMetadata db).description = metaDescriptionFallback) := by
  refine ⟨?_, ?_, ?_, ?_, ?_⟩
  · intro t ht
    simp [generateMetadata, h, ht]
  · intro ht
    simp [generateMetadata, h, ht]
  · intro s hs
    simp [generateMetadata, h, hs]
  · intro s hs hd2
    simp [generateMetadata, h, hs, hd2]
  · intro hs hd2
    simp [generateMetadata, h, hs, hd2]

/-- Witness for C6 on `exDb`, whose category has no SEO overrides. -/
theorem c6_metadata_fields_witness :
    (generateMetadata exDb).title = "Oral Health Tips" ++ " | Pediatric Dentist Directory" ∧
    (generateMetadata exDb).description = "Tips for healthy smiles." :=
  ⟨(c6_metadata_fields exDb exData (by decide)).2.1 rfl,
   (c6_metadata_fields exDb exData (by decide)).2.2.2.1 "Tips for healthy smiles." rfl rfl⟩

/-- C7: for every loaded category, the Open Graph title and description equal
the top-level title and description. -/
theorem c7_open_graph_mirrors (db : Db) (d : PageData)
    (h : getOralHealthTipsData db = some d) :
    (generateMetadata db).openGraph =
      some ⟨(generateMetadata db).title, (generateMetadata db).description⟩ := by
  simp [generateMetadata, h]

/-- Witness for C7 on the concrete store `exDb`. -/
theorem c7_open_graph_mirrors_witness :
    (generateMetadata exDb).openGraph =
      some ⟨(generateMetadata exDb).title, (generateMetadata exDb).description⟩ :=
  c7_open_graph_mirrors exDb exData (by decide)

/-- C8: when the loader returns the not-found signal, the metadata is exactly
the fixed fallback pair — title "Oral Health Tips for Kids", the fixed
description, and no openGraph block — with no category-derived fields. -/
theorem c8_not_found_metadata (db : Db)
    (h : getOralHealthTipsData db = none) :
    generateMetadata db =
      { title := "Oral Health Tips for Kids"
        description := notFoundDescription
        openGraph := none } := by
  simp [generateMetadata, h]

/-- Witness for C8 on the store lacking the fixed category. -/
theorem c8_not_found_metadata_witness :
    generateMetadata exDbMissing =
      { title := "Oral Health Tips for Kids"
        description := notFoundDescription
        openGraph := none } :=
  c8_not_found_metadata exDbMissing (by decide)

/-- C9: the empty-state block shows exactly when the article list is empty
(and then there are zero cards); otherwise there is one card per article in
loader order, and the sidebar receives exactly the first three articles. -/
theorem c9_listing_and_sidebar (db : Db) (fmt : Nat → String) (d : PageData)
    (v : PageView) (hd : getOralHealthTipsData db = some d)
    (hv : OralHealthTipsPage fmt db = some v) :
    (v.showEmptyState = true ↔ d.articles = []) ∧
    (v.showEmptyState = true → v.cards = []) ∧
    v.cards.length = d.articles.length ∧
    (∀ i : Nat, v.cards[i]? = (d.articles[i]?).map (renderCard fmt)) ∧
    v.sidebar.relatedArticles = d.articles.take 3 ∧
    (d.articles.length ≤ 3 → v.sidebar.relatedArticles = d.articles) := by
  unfold OralHealthTipsPage at hv
  rw [hd] at hv
  simp only [Option.some.injEq] at hv
  subst hv
  refine ⟨?_, ?_, ?_, ?_, rfl, ?_⟩
  · simp [renderView, List.length_eq_zero]
  · intro he
    simp only [renderView, beq_iff_eq, List.length_eq_zero] at he
    simp [renderView, he]
  · simp [renderView]
  · intro i
    simp [renderView, List.getElem?_map]
  · intro hlen
    simp [renderView, List.take_of_length_le hlen]

/-- Witness for C9 on the concrete store `exDb` (three articles). -/
theorem c9_listing_and_sidebar_witness :
    ((renderView exFmt exData).showEmptyState = true ↔ exData.articles = []) ∧
    ((renderView exFmt exData).showEmptyState = true →
      (renderView exFmt exData).cards = []) ∧
    (renderView exFmt exData).cards.length = exData.articles.length ∧
    (∀ i : Nat, (renderView exFmt exData).cards[i]? =
      (exData.articles[i]?).map (renderCard exFmt)) ∧
    (renderView exFmt exData).sidebar.relatedArticles = exData.articles.take 3 ∧
    (exData.articles.length ≤ 3 →
      (renderView exFmt exData).sidebar.relatedArticles = exData.articles) :=
  c9_listing_and_sidebar exDb exFmt exData (renderView exFmt exData) (by decide) rfl

/-- C10: present means non-null, not non-empty — a category whose seoTitle,
seoDescription or description is the empty string yields the empty string
verbatim in the metadata and in the hero subheading; fallbacks apply only
when the field is null. -/
theorem c10_empty_string_present (db : Db) (fmt : Nat → String) (d : PageData)
    (h : getOralHealthTipsData db = some d) :
    (d.category.seoTitle = some "" → (generateMetadata db).title = "") ∧
    (d.category.seoDescription = some "" → (generateMetadata db).description = "") ∧
    (d.category.seoDescription = none → d.category.description = some "" →
      (generateMetadata db).description = "") ∧
    (d.category.description = some "" → (renderView fmt d).heroSubheading = "") := by
  refine ⟨?_, ?_, ?_, ?_⟩
  · intro ht
    simp [generateMetadata, h, ht]
  · intro hs
    simp [generateMetadata, h, hs]
  · intro hs hd2
    simp [generateMetadata, h, hs, hd2]
  · intro hd2
    simp [renderView, hd2]

/-- Witness for C10 on the store whose category fields are empty strings. -/
theorem c10_empty_string_present_witness :
    (generateMetadata exDbBlank).title = "" ∧
    (generateMetadata exDbBlank).description = "" ∧
    (renderView exFmt exDataBlank).heroSubheading = "" :=
  ⟨(c10_empty_string_present exDbBlank exFmt exDataBlank (by decide)).1 rfl,
   (c10_empty_string_present exDbBlank exFmt exDataBlank (by decide)).2.1 rfl,
   (c10_empty_string_present exDbBlank exFmt exDataBlank (by decide)).2.2.2 rfl⟩

end OralHealthTips
